import Mathlib

/-!
Shallow embedding of the authentication session bridge of the homeBonzenga
frontend: the canonical User shape, the result envelope, the profile mapper
(frontend/src/lib/supabaseAuth.ts), and the bridge operations
(frontend/src/contexts/SupabaseAuthContext.tsx).

Backend (Supabase) calls are asynchronous and external; each bridge operation
is embedded as a pure function from the current bridge state and the oracle
outcome of the backend calls it performs to the final bridge state, the
operation's outcome (normal return or raised error message), and observable
effects (navigations, number of network calls).

JavaScript semantics that matter and are modelled explicitly:
- the logical-or used in dual reads (`a || b`) treats the empty string and
  `undefined` as falsy (`jsOr`);
- a template literal renders `undefined` as the string "undefined" (`jsStr`);
- a field that may be `undefined` at runtime is an `Option`.
-/

/-- Nested vendor summary carried on a canonical user
(supabaseAuth.ts, interface User.vendor). -/
structure Vendor where
  id : String
  shopname : String
  status : String
deriving Repr, DecidableEq

/-- Canonical application user (supabaseAuth.ts, interface User).
The TypeScript interface declares firstName and lastName as string, but the
mapper's dual read can leave them undefined at runtime, so they are
embedded as Option String.  The role is a string at runtime (the mapper only
casts). -/
structure User where
  id : String
  email : String
  firstName : Option String
  lastName : Option String
  role : String
  status : String
  avatar : Option String
  phone : Option String
  vendor : Option Vendor
  name : String
deriving Repr, DecidableEq

/-- Raw record returned by a select on the users table, with the joined
vendor sub-record.  Name fields may arrive in snake-case or camelCase, so
both spellings are present and optional. -/
structure DbUser where
  id : String
  email : String
  first_name : Option String
  firstName : Option String
  last_name : Option String
  lastName : Option String
  role : String
  status : String
  avatar : Option String
  phone : Option String
  vendor : Option Vendor
deriving Repr, DecidableEq

/-- JavaScript `a || b` on possibly-undefined strings: `undefined` and the
empty string are falsy, so the right operand is taken for both. -/
def jsOr (a b : Option String) : Option String :=
  match a with
  | some s => if s = "" then b else some s
  | none => b

/-- JavaScript template-literal rendering of a possibly-undefined string:
an undefined value prints as the string "undefined". -/
def jsStr (o : Option String) : String :=
  match o with
  | some s => s
  | none => "undefined"

/-- supabaseAuth.ts, mapDatabaseUserToUser: raw record to canonical User.
Dual-reads first/last name from snake-case or camelCase with `||`, passes the
other fields through, rebuilds the vendor sub-record when present, and derives
the display name as a template literal joining the two dual-reads with one
space. -/
def mapDatabaseUserToUser (dbUser : DbUser) : User :=
  { id := dbUser.id
    email := dbUser.email
    firstName := jsOr dbUser.first_name dbUser.firstName
    lastName := jsOr dbUser.last_name dbUser.lastName
    role := dbUser.role
    status := dbUser.status
    avatar := dbUser.avatar
    phone := dbUser.phone
    vendor := dbUser.vendor
    name := jsStr (jsOr dbUser.first_name dbUser.firstName) ++ " "
              ++ jsStr (jsOr dbUser.last_name dbUser.lastName) }

/-- Modelled from the spec: the uniform result envelope of
frontend/src/lib/supabase.ts (not present in the source tree): tagged
success/failure; success carries a payload, failure carries a human-readable
message. -/
inductive SupaResult (α : Type) where
  | success (data : α)
  | failure (error : String)
deriving Repr, DecidableEq

/-- Modelled from the spec: handleSupabaseSuccess of supabase.ts wraps a
payload in the success side of the envelope. -/
def handleSupabaseSuccess {α : Type} (data : α) : SupaResult α :=
  SupaResult.success data

/-- Modelled from the spec: handleSupabaseError of supabase.ts wraps the
thrown error's message, taken verbatim, in the failure side of the
envelope. -/
def handleSupabaseError {α : Type} (message : String) : SupaResult α :=
  SupaResult.failure message

/-- Oracle outcome of a select ... .eq(...) query for at most one row:
zero rows, exactly one row, or a backend transport error. -/
inductive RowsOutcome (α : Type) where
  | zeroRows
  | oneRow (a : α)
  | transportError (message : String)
deriving Repr, DecidableEq

/-- Semantics of the .maybeSingle() postfix on such a query: it yields a
(data, error) pair in which zero rows is data null with no error (unlike
.single(), which turns zero rows into a low-level protocol error). -/
def maybeSingle {α : Type} (rows : RowsOutcome α) : Option α × Option String :=
  match rows with
  | RowsOutcome.zeroRows => (none, none)
  | RowsOutcome.oneRow a => (some a, none)
  | RowsOutcome.transportError e => (none, some e)

/-- The authenticated identity returned by the auth provider; only its id is
consumed by this subsystem. -/
structure AuthUser where
  id : String
deriving Repr, DecidableEq

/-- Oracle outcome of supabase.auth.signInWithPassword: an error, or a data
object whose user and session members may each be absent (session is opaque
and modelled by presence only). -/
structure AuthResponse where
  error : Option String
  user : Option AuthUser
  session : Bool
deriving Repr, DecidableEq

/-- Payload of a successful sign-in: the mapped user plus the opaque provider
session. -/
structure SignInData where
  user : User
  session : Unit
deriving Repr, DecidableEq

/-- supabaseAuth.ts, SupabaseAuthService.signIn: on an auth error, fail with
its message; with no user or no session, fail with "Failed to sign in";
otherwise query the users row by id with .maybeSingle(): a query error fails
with its message, zero rows fails with "User profile not found", and one row
succeeds with the mapped user. -/
def signIn (auth : AuthResponse) (rows : RowsOutcome DbUser) :
    SupaResult SignInData :=
  match auth.error with
  | some e => handleSupabaseError e
  | none =>
    match auth.user, auth.session with
    | some _, true =>
      match maybeSingle rows with
      | (_, some e) => handleSupabaseError e
      | (none, none) => handleSupabaseError "User profile not found"
      | (some row, none) =>
          handleSupabaseSuccess { user := mapDatabaseUserToUser row, session := () }
    | _, _ => handleSupabaseError "Failed to sign in"

/-- Oracle outcome of supabase.auth.getUser(): an error, or a
possibly-absent authenticated user. -/
structure GetUserResponse where
  error : Option String
  user : Option AuthUser
deriving Repr, DecidableEq

/-- supabaseAuth.ts, SupabaseAuthService.getCurrentUser: an auth error fails
with its message; no authenticated user succeeds with payload null; otherwise
the users row is queried by id with .maybeSingle(): a query error fails,
zero rows succeeds with payload null, one row succeeds with the mapped
user. -/
def getCurrentUser (authRes : GetUserResponse) (rows : RowsOutcome DbUser) :
    SupaResult (Option User) :=
  match authRes.error with
  | some e => handleSupabaseError e
  | none =>
    match authRes.user with
    | none => handleSupabaseSuccess none
    | some _ =>
      match maybeSingle rows with
      | (_, some e) => handleSupabaseError e
      | (none, none) => handleSupabaseSuccess none
      | (some row, none) => handleSupabaseSuccess (some (mapDatabaseUserToUser row))

/-- Outcome of a bridge operation as seen by its caller: a normal return or
a raised error carrying its message. -/
inductive Outcome (α : Type) where
  | ok (a : α)
  | err (message : String)
deriving Repr, DecidableEq

/-- The session bridge's local state (SupabaseAuthContext.tsx): the single
current-user value and the loading flag. -/
structure BridgeState where
  user : Option User
  isLoading : Bool
deriving Repr, DecidableEq

/-- SupabaseAuthContext.tsx, getDashboardPath: the role-to-destination
resolver.  The effective role is the argument or, when the argument is absent
or empty (JavaScript falsiness), the installed user's role; a still-falsy
role resolves to the root surface, otherwise the switch sends ADMIN, MANAGER
and VENDOR to their surfaces and CUSTOMER together with the default case to
the customer surface. -/
def getDashboardPath (userRole : Option String) (ctxUser : Option User) :
    String :=
  let role := jsOr userRole (ctxUser.map User.role)
  match role with
  | none => "/"
  | some r =>
    if r = "" then "/"
    else if r = "ADMIN" then "/admin"
    else if r = "MANAGER" then "/manager"
    else if r = "VENDOR" then "/vendor"
    else "/customer"

/-- SupabaseAuthContext.tsx, redirectToDashboard: navigates to
getDashboardPath applied with no role argument, so the installed user's role
decides; the returned string is the destination navigated to. -/
def redirectToDashboard (ctxUser : Option User) : String :=
  getDashboardPath none ctxUser

/-- SupabaseAuthContext.tsx, logout: sets loading, requests sign-out; on a
failure envelope it raises with the backend's message (the user is left
untouched); on success it clears the user and navigates to the landing
surface; the finally block clears loading on both paths.  Returns the final
state, the caller-visible outcome and the navigations performed. -/
def logout (s : BridgeState) (signOutResult : SupaResult Unit) :
    BridgeState × Outcome Unit × List String :=
  let s1 := { s with isLoading := true }
  match signOutResult with
  | SupaResult.failure e => ({ s1 with isLoading := false }, Outcome.err e, [])
  | SupaResult.success _ =>
      ({ user := none, isLoading := false }, Outcome.ok (), ["/"])

/-- SupabaseAuthContext.tsx, login: sets loading, requests sign-in; on a
failure envelope it raises with the backend's message; on success it installs
the returned user and navigates to getDashboardPath of that user's role (the
fallback inside getDashboardPath still sees the pre-login state's user, the
value captured by the closure); the finally block clears loading on both
paths. -/
def login (s : BridgeState) (res : SupaResult SignInData) :
    BridgeState × Outcome Unit × List String :=
  let s1 := { s with isLoading := true }
  match res with
  | SupaResult.failure e => ({ s1 with isLoading := false }, Outcome.err e, [])
  | SupaResult.success d =>
      ({ user := some d.user, isLoading := false }, Outcome.ok (),
        [getDashboardPath (some d.user.role) s.user])

/-- SupabaseAuthContext.tsx, refreshToken: re-fetches the current user; a
success envelope with a user installs it, any other envelope clears the user;
if the awaited call itself throws, the catch clears the user and re-raises.
The loading flag is not touched. -/
def refreshToken (s : BridgeState)
    (call : Outcome (SupaResult (Option User))) :
    BridgeState × Outcome Unit :=
  match call with
  | Outcome.err e => ({ s with user := none }, Outcome.err e)
  | Outcome.ok (SupaResult.success (some u)) =>
      ({ s with user := some u }, Outcome.ok ())
  | Outcome.ok (SupaResult.success none) =>
      ({ s with user := none }, Outcome.ok ())
  | Outcome.ok (SupaResult.failure _) =>
      ({ s with user := none }, Outcome.ok ())

/-- SupabaseAuthContext.tsx, updateProfile: with no installed user it raises
"No user logged in" before setting loading or touching the network (the
third component counts backend calls); otherwise it sets loading, performs
the backend update, installs the returned canonical user on success or raises
on failure, and the finally block clears loading. -/
def updateProfile (s : BridgeState) (backend : SupaResult User) :
    BridgeState × Outcome Unit × Nat :=
  match s.user with
  | none => (s, Outcome.err "No user logged in", 0)
  | some _ =>
    let s1 := { s with isLoading := true }
    match backend with
    | SupaResult.failure e => ({ s1 with isLoading := false }, Outcome.err e, 1)
    | SupaResult.success u =>
        ({ user := some u, isLoading := false }, Outcome.ok (), 1)

/-- SupabaseAuthContext.tsx, the onAuthStateChange push-event handler: a
SIGNED_IN or TOKEN_REFRESHED event with a session fetches the current user
and installs it when the fetch succeeds with a user (otherwise the user is
left unchanged); a SIGNED_OUT event clears the user; any other event changes
nothing; every branch then sets loading false. -/
def onAuthStateChange (s : BridgeState) (event : String) (hasSession : Bool)
    (fetch : SupaResult (Option User)) : BridgeState :=
  let s1 :=
    if event = "SIGNED_IN" ∧ hasSession = true then
      match fetch with
      | SupaResult.success (some u) => { s with user := some u }
      | _ => s
    else if event = "SIGNED_OUT" then { s with user := none }
    else if event = "TOKEN_REFRESHED" ∧ hasSession = true then
      match fetch with
      | SupaResult.success (some u) => { s with user := some u }
      | _ => s
    else s
  { s1 with isLoading := false }

/-- The argument of the profile update: a record of all-optional canonical
user fields (the TypeScript Partial of User). -/
structure ProfileUpdates where
  id : Option String
  email : Option String
  firstName : Option String
  lastName : Option String
  role : Option String
  status : Option String
  avatar : Option String
  phone : Option String
  vendor : Option Vendor
deriving Repr, DecidableEq

/-- A stored row of the external users table (columns from the insert in
createUserProfile plus avatar). -/
structure DbRow where
  id : String
  email : String
  first_name : Option String
  last_name : Option String
  phone : Option String
  avatar : Option String
  role : String
  status : String
  password : String
deriving Repr, DecidableEq

/-- A stored row of the external vendors table; userId is the vendor
association of a user. -/
structure VendorRow where
  id : String
  userId : String
  shopname : String
  status : String
deriving Repr, DecidableEq

/-- The two external tables this subsystem writes to. -/
structure Database where
  users : List DbRow
  vendors : List VendorRow
deriving Repr, DecidableEq

/-- Column assignment semantics of the update payload: a key whose value is
undefined is dropped from the serialized request body, leaving the stored
column unchanged; a present value overwrites it. -/
def setCol (newVal oldVal : Option String) : Option String :=
  match newVal with
  | some v => some v
  | none => oldVal

/-- supabaseAuth.ts, SupabaseAuthService.updateProfile, the update payload:
only the first_name, last_name, phone and avatar columns appear in the
request body, each taken from the corresponding updates field. -/
def applyProfileUpdate (updates : ProfileUpdates) (row : DbRow) : DbRow :=
  { row with
    first_name := setCol updates.firstName row.first_name
    last_name := setCol updates.lastName row.last_name
    phone := setCol updates.phone row.phone
    avatar := setCol updates.avatar row.avatar }

/-- Effect of the update ... .eq(id, userId) statement on the database: the
payload is applied to the users rows whose id matches; the vendors table is
not addressed by the statement. -/
def updateProfileDb (userId : String) (updates : ProfileUpdates)
    (db : Database) : Database :=
  { db with
    users := db.users.map
      (fun r => if r.id = userId then applyProfileUpdate updates r else r) }

/-- Claim C7: when backend authentication succeeds (no auth error, user and
session present) but the expected single users row is absent, signIn fails
with the descriptive failure envelope "User profile not found" — the
zero-row .maybeSingle() query itself produces no transport fault. -/
theorem c7_signIn_profile_not_found
    (auth : AuthResponse) (h1 : auth.error = none)
    (h2 : auth.user.isSome = true) (h3 : auth.session = true) :
    signIn auth RowsOutcome.zeroRows =
      SupaResult.failure "User profile not found" := by
  obtain ⟨e, u, s⟩ := auth
  cases u with
  | none => simp [Option.isSome] at h2
  | some a =>
    simp only at h1 h3
    subst h1 h3
    rfl

/-- Witness for c7_signIn_profile_not_found at a concrete successful
authentication. -/
theorem c7_witness :
    signIn { error := none, user := some { id := "u1" }, session := true }
        RowsOutcome.zeroRows =
      SupaResult.failure "User profile not found" :=
  c7_signIn_profile_not_found
    { error := none, user := some { id := "u1" }, session := true }
    rfl rfl rfl

/-- Claim C8: getCurrentUser never fails merely because nobody is signed in
or the profile row is missing: with no auth error, if the provider reports no
authenticated user, or the users-row query returns zero rows, the result is a
success envelope whose payload is null. -/
theorem c8_getCurrentUser_null_success
    (g : GetUserResponse) (rows : RowsOutcome DbUser)
    (herr : g.error = none)
    (h : g.user = none ∨ rows = RowsOutcome.zeroRows) :
    getCurrentUser g rows = SupaResult.success none := by
  obtain ⟨e, u⟩ := g
  simp only at herr
  subst herr
  cases h with
  | inl hu => simp only at hu; subst hu; rfl
  | inr hr =>
    subst hr
    cases u <;> rfl

/-- Witness for c8_getCurrentUser_null_success: an authenticated user whose
profile row is absent. -/
theorem c8_witness :
    getCurrentUser { error := none, user := some { id := "u1" } }
        RowsOutcome.zeroRows = SupaResult.success none :=
  c8_getCurrentUser_null_success
    { error := none, user := some { id := "u1" } }
    RowsOutcome.zeroRows rfl (Or.inr rfl)

/-- Claim C5 (counterexample): two raw records agreeing everywhere, one with
only snake-case name fields, the other with only camelCase name fields, both
carrying the same value (the empty string) for the first name, map to
different canonical users: JavaScript `||` treats the empty string as falsy,
so the snake-only record yields an undefined firstName and the display name
"undefined Lee", while the camel-only record yields the empty string and the
display name " Lee". -/
theorem c5_counterexample :
    mapDatabaseUserToUser
      { id := "u1", email := "a@b.com", first_name := some "", firstName := none,
        last_name := some "Lee", lastName := none, role := "VENDOR",
        status := "ACTIVE", avatar := none, phone := none, vendor := none } ≠
    mapDatabaseUserToUser
      { id := "u1", email := "a@b.com", first_name := none, firstName := some "",
        last_name := none, lastName := some "Lee", role := "VENDOR",
        status := "ACTIVE", avatar := none, phone := none, vendor := none } := by
  decide

/-- Claim C5 (amended): for every pair of raw records that agree on all other
fields and carry the same nonempty first and last name values, one only in
snake-case and the other only in camelCase, the mapper produces identical
canonical output, whose display name is the first name, a single space, and
the last name. -/
theorem c5_mapper_dual_read
    (id email role status : String) (avatar phone : Option String)
    (vendor : Option Vendor) (fn ln : String)
    (hfn : fn ≠ "") (hln : ln ≠ "") :
    mapDatabaseUserToUser
      { id := id, email := email, first_name := some fn, firstName := none,
        last_name := some ln, lastName := none, role := role, status := status,
        avatar := avatar, phone := phone, vendor := vendor } =
    mapDatabaseUserToUser
      { id := id, email := email, first_name := none, firstName := some fn,
        last_name := none, lastName := some ln, role := role, status := status,
        avatar := avatar, phone := phone, vendor := vendor } ∧
    (mapDatabaseUserToUser
      { id := id, email := email, first_name := some fn, firstName := none,
        last_name := some ln, lastName := none, role := role, status := status,
        avatar := avatar, phone := phone, vendor := vendor }).name
      = fn ++ " " ++ ln := by
  simp [mapDatabaseUserToUser, jsOr, jsStr, hfn, hln]

/-- Witness for c5_mapper_dual_read at concrete nonempty names. -/
theorem c5_witness :
    mapDatabaseUserToUser
      { id := "u1", email := "a@b.com", first_name := some "Ana", firstName := none,
        last_name := some "Lee", lastName := none, role := "VENDOR",
        status := "ACTIVE", avatar := none, phone := none, vendor := none } =
    mapDatabaseUserToUser
      { id := "u1", email := "a@b.com", first_name := none, firstName := some "Ana",
        last_name := none, lastName := some "Lee", role := "VENDOR",
        status := "ACTIVE", avatar := none, phone := none, vendor := none } ∧
    (mapDatabaseUserToUser
      { id := "u1", email := "a@b.com", first_name := some "Ana", firstName := none,
        last_name := some "Lee", lastName := none, role := "VENDOR",
        status := "ACTIVE", avatar := none, phone := none, vendor := none }).name
      = "Ana Lee" :=
  c5_mapper_dual_read "u1" "a@b.com" "VENDOR" "ACTIVE" none none none
    "Ana" "Lee" (by decide) (by decide)

/-- Claim C1 (counterexample): when a user is installed and the backend
sign-out request fails, logout raises and the local user is still present on
exit, so the claim that the user is absent after every logout is false. -/
theorem c1_counterexample :
    (logout
      { user := some
          { id := "u1", email := "a@b.com", firstName := some "Ana",
            lastName := some "Lee", role := "VENDOR", status := "ACTIVE",
            avatar := none, phone := none, vendor := none, name := "Ana Lee" },
        isLoading := false }
      (SupaResult.failure "Network error")).1.user ≠ none := by
  decide

/-- Claim C1 (amended): on every exit of logout the loading flag is false;
the local user is absent when the backend sign-out succeeded (and the call
returns normally), and unchanged when it failed (and the call raises the
backend's message). -/
theorem c1_logout (s : BridgeState) (res : SupaResult Unit) :
    (logout s res).1.isLoading = false ∧
    (logout s res).1.user =
      (match res with
       | SupaResult.success _ => none
       | SupaResult.failure _ => s.user) ∧
    (logout s res).2.1 =
      (match res with
       | SupaResult.success _ => Outcome.ok ()
       | SupaResult.failure e => Outcome.err e) := by
  cases res <;> simp [logout]

/-- Claim C2 (counterexample): the empty string is a present role value, yet
the resolver sends it to the root surface, not the customer surface, because
JavaScript treats the empty string as falsy. -/
theorem c2_counterexample :
    getDashboardPath (some "") none ≠ "/customer" := by
  decide

/-- Claim C2 (amended): for every nonempty role string the resolver maps
ADMIN, MANAGER and VENDOR to their surfaces and every other nonempty string
(CUSTOMER included) to the customer surface, independent of the installed
user; an absent or empty role with no installed user resolves to the root
surface; redirectToDashboard navigates to the destination resolved from the
installed user's role (an empty role behaving like an absent one), and to the
root surface when no user is installed. -/
theorem c2_role_router (r : String) (u : Option User) (usr : User)
    (hr : r ≠ "") :
    getDashboardPath (some r) u =
      (if r = "ADMIN" then "/admin"
       else if r = "MANAGER" then "/manager"
       else if r = "VENDOR" then "/vendor"
       else "/customer") ∧
    getDashboardPath none none = "/" ∧
    getDashboardPath (some "") none = "/" ∧
    redirectToDashboard (some usr) =
      (if usr.role = "" then "/"
       else if usr.role = "ADMIN" then "/admin"
       else if usr.role = "MANAGER" then "/manager"
       else if usr.role = "VENDOR" then "/vendor"
       else "/customer") ∧
    redirectToDashboard none = "/" := by
  refine ⟨?_, rfl, rfl, ?_, rfl⟩
  · simp [getDashboardPath, jsOr, hr]
  · simp [redirectToDashboard, getDashboardPath, jsOr]

/-- Witness for c2_role_router at concrete inputs: an ADMIN role resolves to
the admin surface and redirectToDashboard with a VENDOR user navigates to the
vendor surface. -/
theorem c2_witness :
    getDashboardPath (some "ADMIN") none = "/admin" ∧
    redirectToDashboard
      (some { id := "u1", email := "a@b.com", firstName := some "Ana",
              lastName := some "Lee", role := "VENDOR", status := "ACTIVE",
              avatar := none, phone := none, vendor := none,
              name := "Ana Lee" }) = "/vendor" := by
  have h := c2_role_router "ADMIN" none
    { id := "u1", email := "a@b.com", firstName := some "Ana",
      lastName := some "Lee", role := "VENDOR", status := "ACTIVE",
      avatar := none, phone := none, vendor := none, name := "Ana Lee" }
    (by decide)
  exact ⟨h.1.trans (by decide), h.2.2.2.1.trans (by decide)⟩

/-- Claim C3: updateProfile called while no local user is installed raises
"No user logged in" synchronously, performs zero backend calls, and leaves
the state (user and loading flag) exactly as it was. -/
theorem c3_updateProfile_requires_user (s : BridgeState)
    (backend : SupaResult User) (h : s.user = none) :
    updateProfile s backend = (s, Outcome.err "No user logged in", 0) := by
  obtain ⟨u, l⟩ := s
  simp only at h
  subst h
  rfl

/-- Witness for c3_updateProfile_requires_user at a concrete empty state. -/
theorem c3_witness :
    updateProfile { user := none, isLoading := true }
        (SupaResult.failure "x") =
      ({ user := none, isLoading := true },
        Outcome.err "No user logged in", 0) :=
  c3_updateProfile_requires_user { user := none, isLoading := true }
    (SupaResult.failure "x") rfl

/-- Claim C4: login clears the loading flag on every exit path; when the
sign-in envelope is a success its user is installed; and composed with
signIn, a successful backend authentication that finds the profile row
installs exactly the mapped canonical profile of that row. -/
theorem c4_login (s : BridgeState) (res : SupaResult SignInData)
    (auth : AuthResponse) (rows : RowsOutcome DbUser) :
    (login s res).1.isLoading = false ∧
    (∀ d, res = SupaResult.success d → (login s res).1.user = some d.user) ∧
    (∀ row, auth.error = none → auth.user.isSome = true →
      auth.session = true → rows = RowsOutcome.oneRow row →
      (login s (signIn auth rows)).1.user =
        some (mapDatabaseUserToUser row)) := by
  refine ⟨?_, ?_, ?_⟩
  · cases res <;> simp [login]
  · intro d hd
    subst hd
    simp [login]
  · intro row h1 h2 h3 h4
    subst h4
    obtain ⟨e, au, sess⟩ := auth
    simp only at h1 h3
    subst h1
    subst h3
    cases au with
    | none => simp [Option.isSome] at h2
    | some a =>
      simp [signIn, login, maybeSingle, handleSupabaseSuccess]

/-- Witness for c4_login: a concrete successful sign-in installs the mapped
profile of the fetched row. -/
theorem c4_witness :
    (login { user := none, isLoading := false }
        (signIn { error := none, user := some { id := "u1" }, session := true }
          (RowsOutcome.oneRow
            { id := "u1", email := "a@b.com", first_name := some "Ana",
              firstName := none, last_name := some "Lee", lastName := none,
              role := "VENDOR", status := "ACTIVE", avatar := none,
              phone := none, vendor := none }))).1.user =
      some (mapDatabaseUserToUser
        { id := "u1", email := "a@b.com", first_name := some "Ana",
          firstName := none, last_name := some "Lee", lastName := none,
          role := "VENDOR", status := "ACTIVE", avatar := none,
          phone := none, vendor := none }) :=
  (c4_login { user := none, isLoading := false } (SupaResult.failure "x")
      { error := none, user := some { id := "u1" }, session := true }
      (RowsOutcome.oneRow
        { id := "u1", email := "a@b.com", first_name := some "Ana",
          firstName := none, last_name := some "Lee", lastName := none,
          role := "VENDOR", status := "ACTIVE", avatar := none,
          phone := none, vendor := none })).2.2
    { id := "u1", email := "a@b.com", first_name := some "Ana",
      firstName := none, last_name := some "Lee", lastName := none,
      role := "VENDOR", status := "ACTIVE", avatar := none,
      phone := none, vendor := none }
    rfl rfl rfl rfl

/-- Claim C6: the push-event handler sets loading false after every event; a
SIGNED_IN or TOKEN_REFRESHED event with a session whose user fetch succeeds
with a user installs that user; a SIGNED_OUT event clears the user; every
other event leaves the user unchanged. -/
theorem c6_auth_event_handler (s : BridgeState) (event : String)
    (hasSession : Bool) (fetch : SupaResult (Option User)) :
    (onAuthStateChange s event hasSession fetch).isLoading = false ∧
    (∀ u, event = "SIGNED_IN" → hasSession = true →
      fetch = SupaResult.success (some u) →
      (onAuthStateChange s event hasSession fetch).user = some u) ∧
    (event = "SIGNED_OUT" →
      (onAuthStateChange s event hasSession fetch).user = none) ∧
    (∀ u, event = "TOKEN_REFRESHED" → hasSession = true →
      fetch = SupaResult.success (some u) →
      (onAuthStateChange s event hasSession fetch).user = some u) ∧
    (event ≠ "SIGNED_IN" → event ≠ "SIGNED_OUT" → event ≠ "TOKEN_REFRESHED" →
      (onAuthStateChange s event hasSession fetch).user = s.user) := by
  refine ⟨?_, ?_, ?_, ?_, ?_⟩
  · simp only [onAuthStateChange]
  · intro u he hs hf
    subst he; subst hs; subst hf
    simp [onAuthStateChange]
  · intro he
    subst he
    simp [onAuthStateChange]
  · intro u he hs hf
    subst he; subst hs; subst hf
    simp [onAuthStateChange]
  · intro h1 h2 h3
    simp [onAuthStateChange, h1, h2, h3]

/-- Witness for c6_auth_event_handler: a SIGNED_OUT event clears an installed
user, and an unrelated event (USER_UPDATED) leaves the state's user value
unchanged. -/
theorem c6_witness :
    (onAuthStateChange
      { user := some
          { id := "u1", email := "a@b.com", firstName := some "Ana",
            lastName := some "Lee", role := "VENDOR", status := "ACTIVE",
            avatar := none, phone := none, vendor := none, name := "Ana Lee" },
        isLoading := true } "SIGNED_OUT" true
      (SupaResult.success none)).user = none ∧
    (onAuthStateChange { user := none, isLoading := true } "USER_UPDATED"
      false (SupaResult.success none)).user = none := by
  refine ⟨?_, ?_⟩
  · exact (c6_auth_event_handler
      { user := some
          { id := "u1", email := "a@b.com", firstName := some "Ana",
            lastName := some "Lee", role := "VENDOR", status := "ACTIVE",
            avatar := none, phone := none, vendor := none, name := "Ana Lee" },
        isLoading := true } "SIGNED_OUT" true
      (SupaResult.success none)).2.2.1 rfl
  · exact (c6_auth_event_handler { user := none, isLoading := true }
      "USER_UPDATED" false (SupaResult.success none)).2.2.2.2
      (by decide) (by decide) (by decide)

/-- Claim C9: the profile-update statement writes only the four name, phone
and avatar columns: the vendors table and, on every users row, the id, email,
role, status and password columns are left exactly as they were, whatever the
updates argument supplies. -/
theorem c9_updateProfile_frame (userId : String) (updates : ProfileUpdates)
    (db : Database) :
    (updateProfileDb userId updates db).vendors = db.vendors ∧
    (updateProfileDb userId updates db).users.map
        (fun r => (r.id, r.email, r.role, r.status, r.password)) =
      db.users.map (fun r => (r.id, r.email, r.role, r.status, r.password)) := by
  refine ⟨rfl, ?_⟩
  obtain ⟨us, vs⟩ := db
  simp only [updateProfileDb]
  induction us with
  | nil => rfl
  | cons r rest ih =>
    simp only [List.map_cons, List.cons.injEq]
    refine ⟨?_, ih⟩
    by_cases h : r.id = userId <;> simp [applyProfileUpdate, h]

/-- Claim C10: after refreshToken the installed user is the fetched user
exactly when the re-fetch returned a success envelope carrying a user, and
absent in every other outcome — in particular a throwing re-fetch clears the
user and re-raises the error; the loading flag is untouched. -/
theorem c10_refreshToken (s : BridgeState)
    (call : Outcome (SupaResult (Option User))) :
    (refreshToken s call).1.user =
      (match call with
       | Outcome.ok (SupaResult.success (some u)) => some u
       | _ => none) ∧
    (refreshToken s call).2 =
      (match call with
       | Outcome.err e => Outcome.err e
       | Outcome.ok _ => Outcome.ok ()) ∧
    (refreshToken s call).1.isLoading = s.isLoading := by
  rcases call with env | e
  · rcases env with d | e
    · rcases d with _ | u <;> simp [refreshToken]
    · simp [refreshToken]
  · simp [refreshToken]
